import Mathlib

/-!
Verification of the SQL-generation cache application (`src/streamlit_app.py`).

The program resolves a natural-language query through a two-tier cache
(exact-match Redis hash vs. semantic similarity store), falling back to an
LLM generation call wrapped by a validation guard on a miss, and storing the
validated result back into the active backend.

The embedding below models `generate_response` and the threshold selection in
`main` as pure functions over explicit cache states.  External collaborators
(the Redis client, the semantic cache, the guard, the clock, the UI widgets)
are parameters: the guard's 5-tuple result, the embedding and distance
functions of the vector store, the times read from the clock, and a record of
fault injections standing for the exception each external call may raise.
-/

namespace SqlCache

/-- Python truthiness of the guard's optional error value: `None` and the
empty string are falsy, any other string is truthy. -/
def pyTruthy : Option String → Bool
  | none => false
  | some s => s ≠ ""

/-- Python 'f-string' rendering of the guard's optional error value:
`None` renders as the string "None". -/
def pyStr : Option String → String
  | none => "None"
  | some s => s

/-- The exact-match backend: a Redis hash, modelled as an association list
from literal query text to the stored response string. -/
abbrev ExactCache := List (String × String)

/-- `cache.get(key)`: single key lookup in the exact-match backend. -/
def getKey : ExactCache → String → Option String
  | [], _ => none
  | (k, v) :: rest, q => if k = q then some v else getKey rest q

/-- `cache.set(key, value)`: store in the exact-match backend, overwriting
any prior value for that key. -/
def setKey : ExactCache → String → String → ExactCache
  | [], k, v => [(k, v)]
  | (k', v') :: rest, k, v =>
      if k' = k then (k, v) :: rest else (k', v') :: setKey rest k v

/-- One entry of the semantic backend: a response keyed by the embedding of
the query it was generated for, plus free-form numeric metadata (the program
stores a generation timestamp under "generated_at"). -/
structure SemEntry where
  embedding : List ℚ
  response : String
  metadata : List (String × ℚ)
deriving DecidableEq, Repr

/-- The semantic-similarity backend: its list of stored entries. -/
abbrev SemCache := List SemEntry

/-- `cache.check(prompt=..., distance_threshold=...)` of the external
semantic-cache client: returns the responses of the stored entries whose
embedding lies within the distance threshold of the query's embedding.
`dist` and `embed` are the backend's distance metric and embedding model,
both external.  A `none` threshold is unreachable in the program (`main`
always supplies one for the semantic strategy). -/
def semCheck (dist : List ℚ → List ℚ → ℚ) (embed : String → List ℚ)
    (c : SemCache) (prompt : String) (threshold : Option ℚ) : List String :=
  match threshold with
  | none => []
  | some t =>
      (c.filter (fun e => decide (dist (embed prompt) e.embedding ≤ t))).map
        SemEntry.response

/-- `cache.store(prompt=..., response=..., metadata=...)` of the external
semantic-cache client: appends one entry keyed by the prompt's embedding,
carrying the response and the attached metadata. -/
def semStore (embed : String → List ℚ) (c : SemCache)
    (prompt response : String) (metadata : List (String × ℚ)) : SemCache :=
  c ++ [⟨embed prompt, response, metadata⟩]

/-- Lines 31-33: the raw `cache.get` result is truthy-checked and wrapped in
a one-element list; `None` and the empty byte string both stay falsy and are
treated as a miss downstream. -/
def exactWrap : Option String → List String
  | none => []
  | some s => if s = "" then [] else [s]

/-- Lines 24-33: the cache lookup performed by `generate_response`, selected
by string equality of the strategy with "Semantic Cache". -/
def lookupResult (dist : List ℚ → List ℚ → ℚ) (embed : String → List ℚ)
    (exact : ExactCache) (sem : SemCache) (inputText : String)
    (distanceThreshold : Option ℚ) (cacheStrategy : String) : List String :=
  if cacheStrategy = "Semantic Cache" then
    semCheck dist embed sem inputText distanceThreshold
  else
    exactWrap (getKey exact inputText)

/-- The 5-tuple returned by the guard call (external validation capability
wrapping the generation service): raw output, validated structured object
(a string-keyed mapping, empty standing for falsy/None), reask info,
pass/fail flag, optional error description. -/
structure GuardResult where
  rawOutput : String
  validatedResponse : List (String × String)
  reask : String
  validationPassed : Bool
  error : Option String
deriving DecidableEq, Repr

/-- Modelled from the spec: `LLMResponse` of `src/models.py` (not under
`src/`), the typed schema binding `LLMResponse(**validated_response)`.  The
spec requires the validated structured object to carry at least a
`generated_sql` string field; constructing the model from a mapping lacking
that field raises, which the top-level handler catches. -/
def llmResponseSql (d : List (String × String)) : Except String String :=
  match d.lookup "generated_sql" with
  | some v => Except.ok v
  | none => Except.error "LLMResponse: missing required field generated_sql"

/-- Fault injection for the three external calls that can raise inside the
`try` block: the cache lookup (`check`/`get`), the guard call, and the cache
write (`store`/`set`).  `some e` means that call raises exception `e`. -/
structure Faults where
  lookupFault : Option String
  guardFault : Option String
  storeFault : Option String
deriving DecidableEq, Repr

/-- The fault-free environment: every external call returns normally. -/
def noFaults : Faults := ⟨none, none, none⟩

/-- One rendered UI message: `st.info` of a response string, `st.info` of
the elapsed-time line, or `st.error`. -/
inductive Msg where
  | info (s : String)
  | timeMsg (elapsed : ℚ)
  | errorMsg (s : String)
deriving DecidableEq, Repr

/-- Which branch produced the displayed answer, the spec's `source` field of
the resolve contract. -/
inductive Source where
  | cache
  | generated
deriving DecidableEq, Repr

/-- Observable outcome of one `generate_response` invocation: the two cache
states after the call, the rendered messages in order, the number of guard
(generation) invocations, the number of completed cache writes, the answer
source if an answer was displayed, and the exception still propagating (only
ever `some` for the body, before the top-level handler). -/
structure RunState where
  exact : ExactCache
  sem : SemCache
  output : List Msg
  genCalls : Nat
  stores : Nat
  source : Option Source
  exn : Option String
deriving DecidableEq, Repr

/-- Lines 21-76, the body of the `try` block of `generate_response`:
lookup; on a hit display the first entry's response and the elapsed time; on
a miss call the guard, gate on `error or not validation_passed or not
validated_response`, bind the structured object to `LLMResponse`, display
the generated SQL and elapsed time, then store into the active backend
(semantic store attaches a `generated_at` timestamp).  `tStart` is the
`time.time()` reading at line 22, `tNow` the later reading that forms
`total_time`, `tMeta` the reading used in the store metadata. -/
def generateBody (dist : List ℚ → List ℚ → ℚ) (embed : String → List ℚ)
    (inputText : String) (exact : ExactCache) (sem : SemCache)
    (guardResult : GuardResult) (faults : Faults)
    (distanceThreshold : Option ℚ) (cacheStrategy : String)
    (tStart tNow tMeta : ℚ) : RunState :=
  match faults.lookupFault with
  | some e => ⟨exact, sem, [], 0, 0, none, some e⟩
  | none =>
    let cachedResult :=
      lookupResult dist embed exact sem inputText distanceThreshold cacheStrategy
    if cachedResult.isEmpty then
      match faults.guardFault with
      | some e => ⟨exact, sem, [], 1, 0, none, some e⟩
      | none =>
        let totalTime := tNow - tStart
        if pyTruthy guardResult.error || !guardResult.validationPassed ||
            guardResult.validatedResponse.isEmpty then
          ⟨exact, sem,
            [Msg.errorMsg ("Unable to produce an answer due to: " ++
              pyStr guardResult.error)], 1, 0, none, none⟩
        else
          match llmResponseSql guardResult.validatedResponse with
          | Except.error e => ⟨exact, sem, [], 1, 0, none, some e⟩
          | Except.ok generatedSql =>
            let shown := [Msg.info generatedSql, Msg.timeMsg totalTime]
            match faults.storeFault with
            | some e => ⟨exact, sem, shown, 1, 0, some Source.generated, some e⟩
            | none =>
              if cacheStrategy = "Semantic Cache" then
                ⟨exact,
                  semStore embed sem inputText generatedSql
                    [("generated_at", tMeta)],
                  shown, 1, 1, some Source.generated, none⟩
              else
                ⟨setKey exact inputText generatedSql, sem, shown, 1, 1,
                  some Source.generated, none⟩
    else
      ⟨exact, sem,
        [Msg.info (cachedResult.headD ""), Msg.timeMsg (tNow - tStart)],
        0, 0, some Source.cache, none⟩

/-- Lines 16-79, `generate_response` with its top-level `try`/`except`: any
exception escaping the body is caught and rendered as `st.error(f"Error:
{e}")` after whatever the body already displayed; no exception escapes. -/
def generateResponse (dist : List ℚ → List ℚ → ℚ) (embed : String → List ℚ)
    (inputText : String) (exact : ExactCache) (sem : SemCache)
    (guardResult : GuardResult) (faults : Faults)
    (distanceThreshold : Option ℚ) (cacheStrategy : String)
    (tStart tNow tMeta : ℚ) : RunState :=
  let b := generateBody dist embed inputText exact sem guardResult faults
    distanceThreshold cacheStrategy tStart tNow tMeta
  match b.exn with
  | some e =>
      { b with output := b.output ++ [Msg.errorMsg ("Error: " ++ e)],
               exn := none }
  | none => b

/-- The `st.slider` widget contract (external UI): returns the default value
when untouched, otherwise the user's choice, always confined to the
configured `[minValue, maxValue]` range. -/
def stSlider (minValue maxValue default : ℚ) (userChoice : Option ℚ) : ℚ :=
  match userChoice with
  | none => default
  | some c => max minValue (min maxValue c)

/-- Lines 87-96 of `main`: the distance threshold passed to
`generate_response` — the slider value (range 0 to 1, default 0.1) for the
semantic strategy, `None` otherwise. -/
def mainDistanceThreshold (cacheStrategy : String) (sliderChoice : Option ℚ) :
    Option ℚ :=
  if cacheStrategy = "Semantic Cache" then
    some (stSlider 0 1 (1 / 10) sliderChoice)
  else
    none

/-- The full validation-success condition of the miss path: the gate at line
51 passes (no truthy error, validation passed, non-empty structured object)
and the structured object carries a `generated_sql` field, so the
`LLMResponse` binding succeeds. -/
def validationOK (gr : GuardResult) : Bool :=
  !(pyTruthy gr.error || !gr.validationPassed || gr.validatedResponse.isEmpty)
    && (gr.validatedResponse.lookup "generated_sql").isSome


/-! ## Path lemmas: closed forms of `generateResponse` on each control path -/

section Scenarios

variable (dist : List ℚ → List ℚ → ℚ) (embed : String → List ℚ)
  (q : String) (exact : ExactCache) (sem : SemCache) (gr : GuardResult)
  (f : Faults) (θ : Option ℚ) (strat : String) (t1 t2 t3 : ℚ)

/-- If the cache lookup raises, the handler reports it and nothing else
happened: no generation call, no write. -/
theorem run_lookup_fault (e : String) (hf : f.lookupFault = some e) :
    generateResponse dist embed q exact sem gr f θ strat t1 t2 t3 =
      ⟨exact, sem, [Msg.errorMsg ("Error: " ++ e)], 0, 0, none, none⟩ := by
  unfold generateResponse generateBody
  simp [hf]

/-- On a non-empty lookup, the run displays the first cached response and the
elapsed time and touches nothing. -/
theorem run_hit (hf : f.lookupFault = none)
    (hl : (lookupResult dist embed exact sem q θ strat).isEmpty = false) :
    generateResponse dist embed q exact sem gr f θ strat t1 t2 t3 =
      ⟨exact, sem,
        [Msg.info ((lookupResult dist embed exact sem q θ strat).headD ""),
         Msg.timeMsg (t2 - t1)], 0, 0, some Source.cache, none⟩ := by
  unfold generateResponse generateBody
  simp [hf, hl]

/-- On a miss, if the guard call raises the handler reports it; the
generation call was attempted once and nothing was written. -/
theorem run_guard_fault (e : String) (hf : f.lookupFault = none)
    (hl : lookupResult dist embed exact sem q θ strat = [])
    (hg : f.guardFault = some e) :
    generateResponse dist embed q exact sem gr f θ strat t1 t2 t3 =
      ⟨exact, sem, [Msg.errorMsg ("Error: " ++ e)], 1, 0, none, none⟩ := by
  unfold generateResponse generateBody
  simp [hf, hl, hg]

/-- On a miss, if the gate at line 51 fires (truthy error, failed validation,
or empty structured object), the failure message carries the reported error
and nothing is written. -/
theorem run_miss_fail (hf : f.lookupFault = none)
    (hl : lookupResult dist embed exact sem q θ strat = [])
    (hg : f.guardFault = none)
    (hv : (pyTruthy gr.error || !gr.validationPassed ||
      gr.validatedResponse.isEmpty) = true) :
    generateResponse dist embed q exact sem gr f θ strat t1 t2 t3 =
      ⟨exact, sem,
        [Msg.errorMsg ("Unable to produce an answer due to: " ++ pyStr gr.error)],
        1, 0, none, none⟩ := by
  unfold generateResponse generateBody
  simp [hf, hl, hg, hv]

/-- On a miss passing the gate but with no `generated_sql` field, the
`LLMResponse` binding raises and the handler reports it; nothing is
written. -/
theorem run_miss_nosql (hf : f.lookupFault = none)
    (hl : lookupResult dist embed exact sem q θ strat = [])
    (hg : f.guardFault = none)
    (hv : (pyTruthy gr.error || !gr.validationPassed ||
      gr.validatedResponse.isEmpty) = false)
    (hq : gr.validatedResponse.lookup "generated_sql" = none) :
    generateResponse dist embed q exact sem gr f θ strat t1 t2 t3 =
      ⟨exact, sem,
        [Msg.errorMsg ("Error: LLMResponse: missing required field generated_sql")],
        1, 0, none, none⟩ := by
  unfold generateResponse generateBody llmResponseSql
  simp [hf, hl, hg, hv, hq]

/-- On a validated miss whose store raises, the answer was already displayed,
then the handler reports the store failure; no write completed. -/
theorem run_store_fault (e sql : String) (hf : f.lookupFault = none)
    (hl : lookupResult dist embed exact sem q θ strat = [])
    (hg : f.guardFault = none)
    (hv : (pyTruthy gr.error || !gr.validationPassed ||
      gr.validatedResponse.isEmpty) = false)
    (hq : gr.validatedResponse.lookup "generated_sql" = some sql)
    (hsf : f.storeFault = some e) :
    generateResponse dist embed q exact sem gr f θ strat t1 t2 t3 =
      ⟨exact, sem,
        [Msg.info sql, Msg.timeMsg (t2 - t1), Msg.errorMsg ("Error: " ++ e)],
        1, 0, some Source.generated, none⟩ := by
  unfold generateResponse generateBody llmResponseSql
  simp [hf, hl, hg, hv, hq, hsf]

/-- Fault-free validated miss, semantic strategy: the response is displayed
and stored into the semantic backend with the generation timestamp. -/
theorem run_ok_semantic (sql : String) (hf : f.lookupFault = none)
    (hl : lookupResult dist embed exact sem q θ strat = [])
    (hg : f.guardFault = none)
    (hv : (pyTruthy gr.error || !gr.validationPassed ||
      gr.validatedResponse.isEmpty) = false)
    (hq : gr.validatedResponse.lookup "generated_sql" = some sql)
    (hsf : f.storeFault = none) (hs : strat = "Semantic Cache") :
    generateResponse dist embed q exact sem gr f θ strat t1 t2 t3 =
      ⟨exact, semStore embed sem q sql [("generated_at", t3)],
        [Msg.info sql, Msg.timeMsg (t2 - t1)],
        1, 1, some Source.generated, none⟩ := by
  subst hs
  unfold generateResponse generateBody llmResponseSql
  simp [hf, hl, hg, hv, hq, hsf]

/-- Fault-free validated miss, any non-semantic strategy: the response is
displayed and stored into the exact-match backend under the query text. -/
theorem run_ok_exact (sql : String) (hf : f.lookupFault = none)
    (hl : lookupResult dist embed exact sem q θ strat = [])
    (hg : f.guardFault = none)
    (hv : (pyTruthy gr.error || !gr.validationPassed ||
      gr.validatedResponse.isEmpty) = false)
    (hq : gr.validatedResponse.lookup "generated_sql" = some sql)
    (hsf : f.storeFault = none) (hs : strat ≠ "Semantic Cache") :
    generateResponse dist embed q exact sem gr f θ strat t1 t2 t3 =
      ⟨setKey exact q sql, sem,
        [Msg.info sql, Msg.timeMsg (t2 - t1)],
        1, 1, some Source.generated, none⟩ := by
  unfold generateResponse generateBody llmResponseSql
  simp [hf, hl, hg, hv, hq, hsf, hs]

end Scenarios

/-! ## Helper lemmas -/

/-- A passing validation in particular means the gate at line 51 does not
fire. -/
theorem validationOK_gate (gr : GuardResult) (h : validationOK gr = true) :
    (pyTruthy gr.error || !gr.validationPassed ||
      gr.validatedResponse.isEmpty) = false := by
  unfold validationOK at h
  rcases hb : (pyTruthy gr.error || !gr.validationPassed ||
    gr.validatedResponse.isEmpty) with _ | _
  · rfl
  · rw [hb] at h
    simp at h

/-- Overwrite-then-read on the exact-match backend returns the new value. -/
theorem getKey_setKey_self (c : ExactCache) (k v : String) :
    getKey (setKey c k v) k = some v := by
  induction c with
  | nil => simp [setKey, getKey]
  | cons p rest ih =>
      obtain ⟨k', v'⟩ := p
      by_cases h : k' = k <;> simp [setKey, getKey, h, ih]

/-- Storing under an absent key grows the exact-match backend by exactly one
entry. -/
theorem length_setKey_of_getKey_none (c : ExactCache) (k v : String)
    (h : getKey c k = none) : (setKey c k v).length = c.length + 1 := by
  induction c with
  | nil => simp [setKey]
  | cons p rest ih =>
      obtain ⟨k', v'⟩ := p
      by_cases hk : k' = k
      · simp [getKey, hk] at h
      · simp only [setKey, getKey, hk, if_false] at h ⊢
        simp [ih h]

/-- No exception ever escapes `generate_response`: the handler at line 78
clears it. -/
theorem generateResponse_exn (dist : List ℚ → List ℚ → ℚ)
    (embed : String → List ℚ) (q : String) (exact : ExactCache)
    (sem : SemCache) (gr : GuardResult) (f : Faults) (θ : Option ℚ)
    (strat : String) (t1 t2 t3 : ℚ) :
    (generateResponse dist embed q exact sem gr f θ strat t1 t2 t3).exn =
      none := by
  unfold generateResponse
  cases h : (generateBody dist embed q exact sem gr f θ strat t1 t2 t3).exn <;>
    simp [h]

/-- Master store-count analysis over arbitrary fault environments: a write
completes exactly when lookup succeeded with an empty result, the guard
returned, validation fully passed, and the store itself did not raise; and
never more than one write happens per call. -/
theorem stores_iff (dist : List ℚ → List ℚ → ℚ) (embed : String → List ℚ)
    (q : String) (exact : ExactCache) (sem : SemCache) (gr : GuardResult)
    (f : Faults) (θ : Option ℚ) (strat : String) (t1 t2 t3 : ℚ) :
    ((generateResponse dist embed q exact sem gr f θ strat t1 t2 t3).stores = 1 ↔
      f.lookupFault = none ∧ lookupResult dist embed exact sem q θ strat = [] ∧
      f.guardFault = none ∧ validationOK gr = true ∧ f.storeFault = none) ∧
    (generateResponse dist embed q exact sem gr f θ strat t1 t2 t3).stores ≤ 1 := by
  rcases hf : f.lookupFault with _ | e₁
  · cases hl : lookupResult dist embed exact sem q θ strat with
    | nil =>
        rcases hg : f.guardFault with _ | e₂
        · cases hv : (pyTruthy gr.error || !gr.validationPassed ||
            gr.validatedResponse.isEmpty) with
          | false =>
              rcases hq : gr.validatedResponse.lookup "generated_sql" with _ | sql
              · rw [run_miss_nosql dist embed q exact sem gr f θ strat t1 t2 t3
                  hf hl hg hv hq]
                simp [validationOK, hv, hq]
              · rcases hsf : f.storeFault with _ | e₃
                · by_cases hs : strat = "Semantic Cache"
                  · rw [run_ok_semantic dist embed q exact sem gr f θ strat
                      t1 t2 t3 sql hf hl hg hv hq hsf hs]
                    simp [hf, hl, hg, hsf, validationOK, hv, hq]
                  · rw [run_ok_exact dist embed q exact sem gr f θ strat
                      t1 t2 t3 sql hf hl hg hv hq hsf hs]
                    simp [hf, hl, hg, hsf, validationOK, hv, hq]
                · rw [run_store_fault dist embed q exact sem gr f θ strat
                    t1 t2 t3 e₃ sql hf hl hg hv hq hsf]
                  simp [hsf]
          | true =>
              rw [run_miss_fail dist embed q exact sem gr f θ strat t1 t2 t3
                hf hl hg hv]
              simp [validationOK, hv]
        · rw [run_guard_fault dist embed q exact sem gr f θ strat t1 t2 t3
            e₂ hf hl hg]
          simp [hg]
    | cons a as =>
        rw [run_hit dist embed q exact sem gr f θ strat t1 t2 t3 hf
          (by rw [hl]; rfl)]
        simp [hl]
  · rw [run_lookup_fault dist embed q exact sem gr f θ strat t1 t2 t3 e₁ hf]
    simp [hf]

/-- C1: for every query resolution, an entry is written to the active cache
backend if and only if the validation capability reported pass=true, no
truthy error, and a non-empty structured object carrying a `generated_sql`
field; no unvalidated or partial response is ever stored (at most one write,
and a write in any fault environment still implies full validation). -/
theorem c1_validation_gate (dist : List ℚ → List ℚ → ℚ)
    (embed : String → List ℚ) (q : String) (exact : ExactCache)
    (sem : SemCache) (gr : GuardResult) (f : Faults) (θ : Option ℚ)
    (strat : String) (t1 t2 t3 : ℚ) :
    ((generateResponse dist embed q exact sem gr f θ strat t1 t2 t3).stores = 1 →
      lookupResult dist embed exact sem q θ strat = [] ∧ validationOK gr = true) ∧
    ((generateResponse dist embed q exact sem gr noFaults θ strat t1 t2 t3).stores = 1 ↔
      lookupResult dist embed exact sem q θ strat = [] ∧ validationOK gr = true) ∧
    (generateResponse dist embed q exact sem gr f θ strat t1 t2 t3).stores ≤ 1 := by
  refine ⟨fun h => ?_, ?_,
    (stores_iff dist embed q exact sem gr f θ strat t1 t2 t3).2⟩
  · have hc := (stores_iff dist embed q exact sem gr f θ strat t1 t2 t3).1.mp h
    exact ⟨hc.2.1, hc.2.2.2.1⟩
  · have h2 := (stores_iff dist embed q exact sem gr noFaults θ strat t1 t2 t3).1
    simpa [noFaults] using h2

/-- Witness for C1: a fault-free exact-match miss with passing validation
stores exactly one entry. -/
theorem c1_validation_gate_witness :
    (generateResponse (fun _ _ => (0 : ℚ)) (fun _ => [])
      "list all users" [] []
      ⟨"raw", [("generated_sql", "SELECT * FROM users")], "", true, none⟩
      noFaults none "Exact Match Cache" 0 2 3).stores = 1 :=
  (c1_validation_gate (fun _ _ => (0 : ℚ)) (fun _ => []) "list all users"
    [] [] ⟨"raw", [("generated_sql", "SELECT * FROM users")], "", true, none⟩
    noFaults none "Exact Match Cache" 0 2 3).2.1.mpr
    ⟨by decide, by decide⟩

/-- C2: when the active backend already holds the query (non-empty lookup),
`resolve` never invokes the generation capability and returns the first
returned entry's response with source = cache, leaving both backends
untouched. -/
theorem c2_cache_hit_short_circuit (dist : List ℚ → List ℚ → ℚ)
    (embed : String → List ℚ) (q : String) (exact : ExactCache)
    (sem : SemCache) (gr : GuardResult) (θ : Option ℚ) (strat : String)
    (t1 t2 t3 : ℚ)
    (h : lookupResult dist embed exact sem q θ strat ≠ []) :
    generateResponse dist embed q exact sem gr noFaults θ strat t1 t2 t3 =
      ⟨exact, sem,
        [Msg.info ((lookupResult dist embed exact sem q θ strat).headD ""),
         Msg.timeMsg (t2 - t1)], 0, 0, some Source.cache, none⟩ := by
  have hl : (lookupResult dist embed exact sem q θ strat).isEmpty = false := by
    cases hxx : lookupResult dist embed exact sem q θ strat with
    | nil => exact absurd hxx h
    | cons a as => rfl
  exact run_hit dist embed q exact sem gr noFaults θ strat t1 t2 t3 rfl hl

/-- Witness for C2: a semantic-cache entry within the distance threshold is
returned without any generation call. -/
theorem c2_cache_hit_short_circuit_witness :
    generateResponse (fun _ _ => (0 : ℚ)) (fun _ => [])
      "show all users" [] [⟨[], "SELECT * FROM users", []⟩]
      ⟨"", [], "", false, none⟩ noFaults (some 1) "Semantic Cache" 0 2 3 =
      ⟨[], [⟨[], "SELECT * FROM users", []⟩],
        [Msg.info ((lookupResult (fun _ _ => (0 : ℚ)) (fun _ => []) []
            [⟨[], "SELECT * FROM users", []⟩] "show all users" (some 1)
            "Semantic Cache").headD ""),
         Msg.timeMsg (2 - 0)], 0, 0, some Source.cache, none⟩ :=
  c2_cache_hit_short_circuit (fun _ _ => (0 : ℚ)) (fun _ => [])
    "show all users" [] [⟨[], "SELECT * FROM users", []⟩]
    ⟨"", [], "", false, none⟩ (some 1) "Semantic Cache" 0 2 3 (by decide)

/-- C4: on a miss, whenever the validation capability reports a truthy
error, pass=false, or an empty structured object, no entry is added to
either backend and the failure message carries verbatim the reported error
detail. -/
theorem c4_error_non_persistence (dist : List ℚ → List ℚ → ℚ)
    (embed : String → List ℚ) (q : String) (exact : ExactCache)
    (sem : SemCache) (gr : GuardResult) (θ : Option ℚ) (strat : String)
    (t1 t2 t3 : ℚ)
    (hmiss : lookupResult dist embed exact sem q θ strat = [])
    (hfail : (pyTruthy gr.error || !gr.validationPassed ||
      gr.validatedResponse.isEmpty) = true) :
    generateResponse dist embed q exact sem gr noFaults θ strat t1 t2 t3 =
      ⟨exact, sem,
        [Msg.errorMsg ("Unable to produce an answer due to: " ++ pyStr gr.error)],
        1, 0, none, none⟩ :=
  run_miss_fail dist embed q exact sem gr noFaults θ strat t1 t2 t3
    rfl hmiss rfl hfail

/-- Witness for C4: a failed validation with detail "boom" persists nothing
and surfaces the detail. -/
theorem c4_error_non_persistence_witness :
    generateResponse (fun _ _ => (0 : ℚ)) (fun _ => [])
      "list all users" [] [] ⟨"raw", [], "", false, some "boom"⟩
      noFaults none "Exact Match Cache" 0 2 3 =
      ⟨[], [],
        [Msg.errorMsg ("Unable to produce an answer due to: " ++
          pyStr (some "boom"))],
        1, 0, none, none⟩ :=
  c4_error_non_persistence (fun _ _ => (0 : ℚ)) (fun _ => [])
    "list all users" [] [] ⟨"raw", [], "", false, some "boom"⟩
    none "Exact Match Cache" 0 2 3 (by decide) (by decide)

/-- C5: every exception raised inside a query resolution — cache backend
error on lookup, network error in the guard call, malformed structured
object, store failure — is caught at the top level and rendered as
"Error: <message>"; no exception escapes the handler, so the process
survives each query. -/
theorem c5_top_level_exception_handling (dist : List ℚ → List ℚ → ℚ)
    (embed : String → List ℚ) (q : String) (exact : ExactCache)
    (sem : SemCache) (gr : GuardResult) (f : Faults) (θ : Option ℚ)
    (strat : String) (t1 t2 t3 : ℚ) (e sql : String) :
    (f.lookupFault = some e →
      generateResponse dist embed q exact sem gr f θ strat t1 t2 t3 =
        ⟨exact, sem, [Msg.errorMsg ("Error: " ++ e)], 0, 0, none, none⟩) ∧
    (f.lookupFault = none →
      lookupResult dist embed exact sem q θ strat = [] →
      f.guardFault = some e →
      generateResponse dist embed q exact sem gr f θ strat t1 t2 t3 =
        ⟨exact, sem, [Msg.errorMsg ("Error: " ++ e)], 1, 0, none, none⟩) ∧
    (lookupResult dist embed exact sem q θ strat = [] →
      (pyTruthy gr.error || !gr.validationPassed ||
        gr.validatedResponse.isEmpty) = false →
      gr.validatedResponse.lookup "generated_sql" = none →
      generateResponse dist embed q exact sem gr noFaults θ strat t1 t2 t3 =
        ⟨exact, sem,
          [Msg.errorMsg ("Error: LLMResponse: missing required field generated_sql")],
          1, 0, none, none⟩) ∧
    (f.lookupFault = none →
      lookupResult dist embed exact sem q θ strat = [] →
      f.guardFault = none →
      (pyTruthy gr.error || !gr.validationPassed ||
        gr.validatedResponse.isEmpty) = false →
      gr.validatedResponse.lookup "generated_sql" = some sql →
      f.storeFault = some e →
      generateResponse dist embed q exact sem gr f θ strat t1 t2 t3 =
        ⟨exact, sem,
          [Msg.info sql, Msg.timeMsg (t2 - t1), Msg.errorMsg ("Error: " ++ e)],
          1, 0, some Source.generated, none⟩) ∧
    (generateResponse dist embed q exact sem gr f θ strat t1 t2 t3).exn =
      none :=
  ⟨fun h1 => run_lookup_fault dist embed q exact sem gr f θ strat t1 t2 t3 e h1,
   fun h1 h2 h3 =>
     run_guard_fault dist embed q exact sem gr f θ strat t1 t2 t3 e h1 h2 h3,
   fun h1 h2 h3 =>
     run_miss_nosql dist embed q exact sem gr noFaults θ strat t1 t2 t3
       rfl h1 rfl h2 h3,
   fun h1 h2 h3 h4 h5 h6 =>
     run_store_fault dist embed q exact sem gr f θ strat t1 t2 t3 e sql
       h1 h2 h3 h4 h5 h6,
   generateResponse_exn dist embed q exact sem gr f θ strat t1 t2 t3⟩

/-- Witness for C5: a raising cache lookup is rendered as a generic error
with no generation call and no state change. -/
theorem c5_top_level_exception_handling_witness :
    generateResponse (fun _ _ => (0 : ℚ)) (fun _ => [])
      "list all users" [] [] ⟨"raw", [], "", false, none⟩
      ⟨some "redis down", none, none⟩ none "Exact Match Cache" 0 2 3 =
      ⟨[], [], [Msg.errorMsg ("Error: " ++ "redis down")], 0, 0, none, none⟩ :=
  (c5_top_level_exception_handling (fun _ _ => (0 : ℚ)) (fun _ => [])
    "list all users" [] [] ⟨"raw", [], "", false, none⟩
    ⟨some "redis down", none, none⟩ none "Exact Match Cache" 0 2 3
    "redis down" "x").1 rfl

/-- C3: on a fault-free miss with passing validation, generation is invoked
exactly once and exactly one new entry is stored, keyed by the query's
embedding for the semantic strategy and by the literal query text
otherwise. -/
theorem c3_cache_miss_single_generation (dist : List ℚ → List ℚ → ℚ)
    (embed : String → List ℚ) (q : String) (exact : ExactCache)
    (sem : SemCache) (gr : GuardResult) (θ : Option ℚ) (strat : String)
    (t1 t2 t3 : ℚ) (sql : String)
    (hmiss : lookupResult dist embed exact sem q θ strat = [])
    (hok : validationOK gr = true)
    (hq : gr.validatedResponse.lookup "generated_sql" = some sql) :
    (generateResponse dist embed q exact sem gr noFaults θ strat t1 t2 t3).genCalls = 1 ∧
    (generateResponse dist embed q exact sem gr noFaults θ strat t1 t2 t3).stores = 1 ∧
    (strat = "Semantic Cache" →
      (generateResponse dist embed q exact sem gr noFaults θ strat t1 t2 t3).sem =
        sem ++ [⟨embed q, sql, [("generated_at", t3)]⟩] ∧
      (generateResponse dist embed q exact sem gr noFaults θ strat t1 t2 t3).exact =
        exact) ∧
    (strat ≠ "Semantic Cache" →
      (generateResponse dist embed q exact sem gr noFaults θ strat t1 t2 t3).exact =
        setKey exact q sql ∧
      (generateResponse dist embed q exact sem gr noFaults θ strat t1 t2 t3).sem =
        sem ∧
      getKey (generateResponse dist embed q exact sem gr noFaults θ strat t1 t2 t3).exact q =
        some sql ∧
      (getKey exact q = none →
        (generateResponse dist embed q exact sem gr noFaults θ strat t1 t2 t3).exact.length =
          exact.length + 1)) := by
  have hv := validationOK_gate gr hok
  by_cases hs : strat = "Semantic Cache"
  · rw [run_ok_semantic dist embed q exact sem gr noFaults θ strat t1 t2 t3
      sql rfl hmiss rfl hv hq rfl hs]
    exact ⟨rfl, rfl, fun _ => ⟨rfl, rfl⟩, fun h => absurd hs h⟩
  · rw [run_ok_exact dist embed q exact sem gr noFaults θ strat t1 t2 t3
      sql rfl hmiss rfl hv hq rfl hs]
    exact ⟨rfl, rfl, fun h => absurd h hs,
      fun _ => ⟨rfl, rfl, getKey_setKey_self exact q sql,
        fun hn => length_setKey_of_getKey_none exact q sql hn⟩⟩

/-- Witness for C3: a semantic-strategy miss stores one entry keyed by the
query's embedding with the generation timestamp. -/
theorem c3_cache_miss_single_generation_witness :
    (generateResponse (fun _ _ => (0 : ℚ)) (fun _ => [0])
      "list all users" [] []
      ⟨"raw", [("generated_sql", "SELECT * FROM users")], "", true, none⟩
      noFaults (some 1) "Semantic Cache" 0 2 3).genCalls = 1 ∧
    (generateResponse (fun _ _ => (0 : ℚ)) (fun _ => [0])
      "list all users" [] []
      ⟨"raw", [("generated_sql", "SELECT * FROM users")], "", true, none⟩
      noFaults (some 1) "Semantic Cache" 0 2 3).stores = 1 ∧
    ("Semantic Cache" = "Semantic Cache" →
      (generateResponse (fun _ _ => (0 : ℚ)) (fun _ => [0])
        "list all users" [] []
        ⟨"raw", [("generated_sql", "SELECT * FROM users")], "", true, none⟩
        noFaults (some 1) "Semantic Cache" 0 2 3).sem =
        [] ++ [⟨(fun _ => [(0 : ℚ)]) "list all users", "SELECT * FROM users",
          [("generated_at", 3)]⟩] ∧
      (generateResponse (fun _ _ => (0 : ℚ)) (fun _ => [0])
        "list all users" [] []
        ⟨"raw", [("generated_sql", "SELECT * FROM users")], "", true, none⟩
        noFaults (some 1) "Semantic Cache" 0 2 3).exact = []) ∧
    ("Semantic Cache" ≠ "Semantic Cache" →
      (generateResponse (fun _ _ => (0 : ℚ)) (fun _ => [0])
        "list all users" [] []
        ⟨"raw", [("generated_sql", "SELECT * FROM users")], "", true, none⟩
        noFaults (some 1) "Semantic Cache" 0 2 3).exact =
        setKey [] "list all users" "SELECT * FROM users" ∧
      (generateResponse (fun _ _ => (0 : ℚ)) (fun _ => [0])
        "list all users" [] []
        ⟨"raw", [("generated_sql", "SELECT * FROM users")], "", true, none⟩
        noFaults (some 1) "Semantic Cache" 0 2 3).sem = [] ∧
      getKey (generateResponse (fun _ _ => (0 : ℚ)) (fun _ => [0])
        "list all users" [] []
        ⟨"raw", [("generated_sql", "SELECT * FROM users")], "", true, none⟩
        noFaults (some 1) "Semantic Cache" 0 2 3).exact "list all users" =
        some "SELECT * FROM users" ∧
      (getKey [] "list all users" = none →
        (generateResponse (fun _ _ => (0 : ℚ)) (fun _ => [0])
          "list all users" [] []
          ⟨"raw", [("generated_sql", "SELECT * FROM users")], "", true, none⟩
          noFaults (some 1) "Semantic Cache" 0 2 3).exact.length =
          List.length ([] : ExactCache) + 1)) :=
  c3_cache_miss_single_generation (fun _ _ => (0 : ℚ)) (fun _ => [0])
    "list all users" [] []
    ⟨"raw", [("generated_sql", "SELECT * FROM users")], "", true, none⟩
    (some 1) "Semantic Cache" 0 2 3 "SELECT * FROM users"
    (by decide) (by decide) (by decide)

/-- C6: on a fault-free validated miss, `generated_sql` is extracted and
displayed together with the elapsed time, source = generated; the store
receives the query and this value, with a `generated_at` timestamp attached
for the semantic path only, the exact path storing the bare string. -/
theorem c6_validated_miss_store_and_return (dist : List ℚ → List ℚ → ℚ)
    (embed : String → List ℚ) (q : String) (exact : ExactCache)
    (sem : SemCache) (gr : GuardResult) (θ : Option ℚ) (strat : String)
    (t1 t2 t3 : ℚ) (sql : String)
    (hmiss : lookupResult dist embed exact sem q θ strat = [])
    (hok : validationOK gr = true)
    (hq : gr.validatedResponse.lookup "generated_sql" = some sql) :
    (generateResponse dist embed q exact sem gr noFaults θ strat t1 t2 t3).output =
      [Msg.info sql, Msg.timeMsg (t2 - t1)] ∧
    (generateResponse dist embed q exact sem gr noFaults θ strat t1 t2 t3).source =
      some Source.generated ∧
    (strat = "Semantic Cache" →
      (generateResponse dist embed q exact sem gr noFaults θ strat t1 t2 t3).sem =
        semStore embed sem q sql [("generated_at", t3)] ∧
      (generateResponse dist embed q exact sem gr noFaults θ strat t1 t2 t3).exact =
        exact) ∧
    (strat ≠ "Semantic Cache" →
      (generateResponse dist embed q exact sem gr noFaults θ strat t1 t2 t3).exact =
        setKey exact q sql ∧
      (generateResponse dist embed q exact sem gr noFaults θ strat t1 t2 t3).sem =
        sem) := by
  have hv := validationOK_gate gr hok
  by_cases hs : strat = "Semantic Cache"
  · rw [run_ok_semantic dist embed q exact sem gr noFaults θ strat t1 t2 t3
      sql rfl hmiss rfl hv hq rfl hs]
    exact ⟨rfl, rfl, fun _ => ⟨rfl, rfl⟩, fun h => absurd hs h⟩
  · rw [run_ok_exact dist embed q exact sem gr noFaults θ strat t1 t2 t3
      sql rfl hmiss rfl hv hq rfl hs]
    exact ⟨rfl, rfl, fun h => absurd h hs, fun _ => ⟨rfl, rfl⟩⟩

/-- Witness for C6: an exact-match validated miss displays the generated SQL
and stores it under the literal query text with no metadata. -/
theorem c6_validated_miss_store_and_return_witness :
    (generateResponse (fun _ _ => (0 : ℚ)) (fun _ => [])
      "list all users" [] []
      ⟨"raw", [("generated_sql", "SELECT * FROM users")], "", true, none⟩
      noFaults none "Exact Match Cache" 0 2 3).output =
      [Msg.info "SELECT * FROM users", Msg.timeMsg (2 - 0)] ∧
    (generateResponse (fun _ _ => (0 : ℚ)) (fun _ => [])
      "list all users" [] []
      ⟨"raw", [("generated_sql", "SELECT * FROM users")], "", true, none⟩
      noFaults none "Exact Match Cache" 0 2 3).source =
      some Source.generated ∧
    ("Exact Match Cache" = "Semantic Cache" →
      (generateResponse (fun _ _ => (0 : ℚ)) (fun _ => [])
        "list all users" [] []
        ⟨"raw", [("generated_sql", "SELECT * FROM users")], "", true, none⟩
        noFaults none "Exact Match Cache" 0 2 3).sem =
        semStore (fun _ => []) [] "list all users" "SELECT * FROM users"
          [("generated_at", 3)] ∧
      (generateResponse (fun _ _ => (0 : ℚ)) (fun _ => [])
        "list all users" [] []
        ⟨"raw", [("generated_sql", "SELECT * FROM users")], "", true, none⟩
        noFaults none "Exact Match Cache" 0 2 3).exact = []) ∧
    ("Exact Match Cache" ≠ "Semantic Cache" →
      (generateResponse (fun _ _ => (0 : ℚ)) (fun _ => [])
        "list all users" [] []
        ⟨"raw", [("generated_sql", "SELECT * FROM users")], "", true, none⟩
        noFaults none "Exact Match Cache" 0 2 3).exact =
        setKey [] "list all users" "SELECT * FROM users" ∧
      (generateResponse (fun _ _ => (0 : ℚ)) (fun _ => [])
        "list all users" [] []
        ⟨"raw", [("generated_sql", "SELECT * FROM users")], "", true, none⟩
        noFaults none "Exact Match Cache" 0 2 3).sem = []) :=
  c6_validated_miss_store_and_return (fun _ _ => (0 : ℚ)) (fun _ => [])
    "list all users" [] []
    ⟨"raw", [("generated_sql", "SELECT * FROM users")], "", true, none⟩
    none "Exact Match Cache" 0 2 3 "SELECT * FROM users"
    (by decide) (by decide) (by decide)

/-- C7: for any non-semantic strategy the lookup ignores the distance
threshold entirely (the whole run is threshold-independent), performs a
single key lookup on the literal query text, and yields at most one entry
wrapped in a one-element sequence, or none. -/
theorem c7_exact_lookup_ignores_threshold (dist : List ℚ → List ℚ → ℚ)
    (embed : String → List ℚ) (q : String) (exact : ExactCache)
    (sem : SemCache) (gr : GuardResult) (f : Faults) (θ₁ θ₂ : Option ℚ)
    (strat : String) (t1 t2 t3 : ℚ)
    (hs : strat ≠ "Semantic Cache") :
    generateResponse dist embed q exact sem gr f θ₁ strat t1 t2 t3 =
      generateResponse dist embed q exact sem gr f θ₂ strat t1 t2 t3 ∧
    lookupResult dist embed exact sem q θ₁ strat =
      exactWrap (getKey exact q) ∧
    (exactWrap (getKey exact q)).length ≤ 1 := by
  refine ⟨?_, ?_, ?_⟩
  · unfold generateResponse generateBody
    simp [lookupResult, hs]
  · unfold lookupResult
    simp [hs]
  · rcases getKey exact q with _ | s
    · simp [exactWrap]
    · unfold exactWrap
      by_cases h : s = "" <;> simp [h]

/-- Witness for C7: with the exact-match strategy a populated exact cache
behaves identically under threshold none and threshold 1. -/
theorem c7_exact_lookup_ignores_threshold_witness :
    generateResponse (fun _ _ => (0 : ℚ)) (fun _ => [])
      "list all users" [("list all users", "SELECT * FROM users")] []
      ⟨"raw", [], "", false, none⟩ noFaults none "Exact Match Cache" 0 2 3 =
      generateResponse (fun _ _ => (0 : ℚ)) (fun _ => [])
        "list all users" [("list all users", "SELECT * FROM users")] []
        ⟨"raw", [], "", false, none⟩ noFaults (some 1) "Exact Match Cache"
        0 2 3 ∧
    lookupResult (fun _ _ => (0 : ℚ)) (fun _ => [])
      [("list all users", "SELECT * FROM users")] [] "list all users" none
      "Exact Match Cache" =
      exactWrap (getKey [("list all users", "SELECT * FROM users")]
        "list all users") ∧
    (exactWrap (getKey [("list all users", "SELECT * FROM users")]
      "list all users")).length ≤ 1 :=
  c7_exact_lookup_ignores_threshold (fun _ _ => (0 : ℚ)) (fun _ => [])
    "list all users" [("list all users", "SELECT * FROM users")] []
    ⟨"raw", [], "", false, none⟩ noFaults none (some 1) "Exact Match Cache"
    0 2 3 (by decide)

/-- C8: the distance threshold handed to `generate_response` is a rational
in the slider range [0, 1] with default 1/10 exactly when the semantic
strategy is selected, and None for every other strategy choice. -/
theorem c8_threshold_range (strat : String) (u : Option ℚ) :
    (strat = "Semantic Cache" →
      mainDistanceThreshold strat u = some (stSlider 0 1 (1 / 10) u) ∧
      (0 : ℚ) ≤ stSlider 0 1 (1 / 10) u ∧ stSlider 0 1 (1 / 10) u ≤ 1 ∧
      (u = none → stSlider 0 1 (1 / 10) u = 1 / 10)) ∧
    (strat ≠ "Semantic Cache" → mainDistanceThreshold strat u = none) := by
  constructor
  · intro hsem
    refine ⟨by simp [mainDistanceThreshold, hsem], ?_, ?_,
      fun hu => by simp [stSlider, hu]⟩
    · rcases u with _ | c
      · norm_num [stSlider]
      · exact le_max_left 0 (min 1 c)
    · rcases u with _ | c
      · norm_num [stSlider]
      · exact max_le (by norm_num) (min_le_left 1 c)
  · intro hs
    simp [mainDistanceThreshold, hs]

/-- Witness for C8: with the semantic strategy and an untouched slider the
threshold is some value in [0, 1] defaulting to 1/10. -/
theorem c8_threshold_range_witness :
    mainDistanceThreshold "Semantic Cache" none =
      some (stSlider 0 1 (1 / 10) none) ∧
    (0 : ℚ) ≤ stSlider 0 1 (1 / 10) none ∧
    stSlider 0 1 (1 / 10) none ≤ 1 ∧
    (none = (none : Option ℚ) → stSlider 0 1 (1 / 10) none = 1 / 10) :=
  (c8_threshold_range "Semantic Cache" none).1 rfl

/-- C9: with the exact-match strategy, a stored empty-string value is falsy,
so resolving the same query is a cache miss: generation runs again and the
entry is overwritten with the new SQL. -/
theorem c9_empty_string_is_miss (dist : List ℚ → List ℚ → ℚ)
    (embed : String → List ℚ) (q : String) (exact : ExactCache)
    (sem : SemCache) (gr : GuardResult) (θ : Option ℚ) (t1 t2 t3 : ℚ)
    (sql : String)
    (hempty : getKey exact q = some "")
    (hok : validationOK gr = true)
    (hq : gr.validatedResponse.lookup "generated_sql" = some sql) :
    (generateResponse dist embed q exact sem gr noFaults θ
      "Exact Match Cache" t1 t2 t3).genCalls = 1 ∧
    (generateResponse dist embed q exact sem gr noFaults θ
      "Exact Match Cache" t1 t2 t3).stores = 1 ∧
    (generateResponse dist embed q exact sem gr noFaults θ
      "Exact Match Cache" t1 t2 t3).exact = setKey exact q sql ∧
    getKey (generateResponse dist embed q exact sem gr noFaults θ
      "Exact Match Cache" t1 t2 t3).exact q = some sql := by
  have hmiss : lookupResult dist embed exact sem q θ "Exact Match Cache" = [] := by
    unfold lookupResult
    simp [hempty, exactWrap]
  have hv := validationOK_gate gr hok
  rw [run_ok_exact dist embed q exact sem gr noFaults θ "Exact Match Cache"
    t1 t2 t3 sql rfl hmiss rfl hv hq rfl (by decide)]
  exact ⟨rfl, rfl, rfl, getKey_setKey_self exact q sql⟩

/-- Witness for C9: an empty stored response is regenerated and
overwritten. -/
theorem c9_empty_string_is_miss_witness :
    (generateResponse (fun _ _ => (0 : ℚ)) (fun _ => [])
      "list all users" [("list all users", "")] []
      ⟨"raw", [("generated_sql", "SELECT * FROM users")], "", true, none⟩
      noFaults none "Exact Match Cache" 0 2 3).genCalls = 1 ∧
    (generateResponse (fun _ _ => (0 : ℚ)) (fun _ => [])
      "list all users" [("list all users", "")] []
      ⟨"raw", [("generated_sql", "SELECT * FROM users")], "", true, none⟩
      noFaults none "Exact Match Cache" 0 2 3).stores = 1 ∧
    (generateResponse (fun _ _ => (0 : ℚ)) (fun _ => [])
      "list all users" [("list all users", "")] []
      ⟨"raw", [("generated_sql", "SELECT * FROM users")], "", true, none⟩
      noFaults none "Exact Match Cache" 0 2 3).exact =
      setKey [("list all users", "")] "list all users" "SELECT * FROM users" ∧
    getKey (generateResponse (fun _ _ => (0 : ℚ)) (fun _ => [])
      "list all users" [("list all users", "")] []
      ⟨"raw", [("generated_sql", "SELECT * FROM users")], "", true, none⟩
      noFaults none "Exact Match Cache" 0 2 3).exact "list all users" =
      some "SELECT * FROM users" :=
  c9_empty_string_is_miss (fun _ _ => (0 : ℚ)) (fun _ => [])
    "list all users" [("list all users", "")] []
    ⟨"raw", [("generated_sql", "SELECT * FROM users")], "", true, none⟩
    none 0 2 3 "SELECT * FROM users" (by decide) (by decide) (by decide)

/-- C10: strategy dispatch is by string equality with "Semantic Cache": any
other strategy value makes the whole run identical to the exact-match run,
for lookup and store alike. -/
theorem c10_strategy_string_dispatch (dist : List ℚ → List ℚ → ℚ)
    (embed : String → List ℚ) (q : String) (exact : ExactCache)
    (sem : SemCache) (gr : GuardResult) (f : Faults) (θ : Option ℚ)
    (strat : String) (t1 t2 t3 : ℚ)
    (hs : strat ≠ "Semantic Cache") :
    generateResponse dist embed q exact sem gr f θ strat t1 t2 t3 =
      generateResponse dist embed q exact sem gr f θ "Exact Match Cache"
        t1 t2 t3 := by
  unfold generateResponse generateBody
  simp [lookupResult, hs]

/-- Witness for C10: the unrecognized strategy string "semantic cache"
(lowercase) takes the exact-match path. -/
theorem c10_strategy_string_dispatch_witness :
    generateResponse (fun _ _ => (0 : ℚ)) (fun _ => [])
      "list all users" [] [] ⟨"raw", [], "", false, none⟩
      noFaults none "semantic cache" 0 2 3 =
      generateResponse (fun _ _ => (0 : ℚ)) (fun _ => [])
        "list all users" [] [] ⟨"raw", [], "", false, none⟩
        noFaults none "Exact Match Cache" 0 2 3 :=
  c10_strategy_string_dispatch (fun _ _ => (0 : ℚ)) (fun _ => [])
    "list all users" [] [] ⟨"raw", [], "", false, none⟩
    noFaults none "semantic cache" 0 2 3 (by decide)

end SqlCache
